import Mathlib

/-!
Verification of the movie-recommender pipeline in `movie_recommender.py` and
`movie_recommender_app.py`.

The two files share an identical data pipeline (`load_data`):
  1. `pd.merge(ratings, movies, on='movie_id')` — an inner join attaching a
     title to every rating observation;
  2. `data.pivot_table(index='user_id', columns='title', values='rating')` —
     a user × title matrix whose rows and columns are the sorted distinct
     user ids / titles, each cell holding the arithmetic mean of the matching
     ratings (pandas' default `aggfunc='mean'`);
  3. `.fillna(0)` — absent cells become 0;
  4. `cosine_similarity(matrix.T)` — scikit-learn's cosine similarity between
     title columns.  scikit-learn first `normalize`s each row and its
     `normalize` explicitly replaces zero norms by 1 (guard against NaN/Inf);
     its `check_array` rejects inputs with zero samples.

Ratings are embedded as exact rationals and similarity values as exact reals
(the similarity involves square roots).
-/

/-- A rating observation: one row of `u.data`
(`user_id`, `movie_id`, `rating`, `timestamp`). -/
structure Obs where
  user_id : Int
  movie_id : Int
  rating : Rat
  timestamp : Int
deriving DecidableEq, Repr

/-- An item-identity row of `u.item` (`movie_id`, `title`). -/
structure Movie where
  movie_id : Int
  title : String
deriving DecidableEq, Repr

/-- The inner join `pd.merge(ratings, movies, on='movie_id')`: every rating row
is paired with every movie row carrying the same `movie_id` (rows whose id has
no match are dropped, duplicated ids on the movies side duplicate the rating
row). -/
def mergeData (ratings : List Obs) (movies : List Movie) : List (Obs × String) :=
  ratings.flatMap fun r =>
    (movies.filter fun m => m.movie_id = r.movie_id).map fun m => (r, m.title)

/-- Lexicographic code-point comparison of character lists: the order Python
(and hence pandas) uses on title strings. -/
def strLeB : List Char → List Char → Bool
  | [], _ => true
  | _ :: _, [] => false
  | a :: as, b :: bs =>
    if a.val < b.val then true
    else if b.val < a.val then false
    else strLeB as bs

/-- Sorted deduplication of the title column: `pivot_table` keys its columns by
the distinct `title` values in sorted order. -/
def pivotTitles (d : List (Obs × String)) : List String :=
  List.insertionSort (fun a b => strLeB a.data b.data = true) (d.map Prod.snd).dedup

/-- Sorted deduplication of the `user_id` column: `pivot_table` keys its rows
by the distinct `user_id` values in sorted order. -/
def pivotUsers (d : List (Obs × String)) : List Int :=
  List.insertionSort (fun a b => a ≤ b) (d.map fun p => p.1.user_id).dedup

/-- The ratings of the merged data that fall into the pivot cell
`(user_id = u, title = t)`. -/
def cellRatings (d : List (Obs × String)) (u : Int) (t : String) : List Rat :=
  (d.filter fun p => p.1.user_id = u ∧ p.2 = t).map fun p => p.1.rating

/-- One cell of `pivot_table(...).fillna(0)`: the arithmetic mean of the
matching ratings (pandas' default `aggfunc='mean'`), and 0 for a cell with no
observation (`fillna(0)`). -/
def cell (d : List (Obs × String)) (u : Int) (t : String) : Rat :=
  let rs := cellRatings d u t
  if rs = [] then 0 else rs.sum / (rs.length : Rat)

/-- The column of the filled user × title matrix belonging to title `t`, read
along the sorted user index: the vector handed to `cosine_similarity` for this
title (one coordinate per user). -/
def matCol (d : List (Obs × String)) (t : String) : List Rat :=
  (pivotUsers d).map fun u => cell d u t

/-- Dot product of two rating vectors (coordinates paired positionally, as
numpy does on equally indexed vectors). -/
def dotp (xs ys : List Rat) : Rat :=
  ((xs.zip ys).map fun p => p.1 * p.2).sum

/-- Squared Euclidean norm of a rating vector. -/
def normSq (xs : List Rat) : Rat :=
  dotp xs xs

/-- The guarded norm used by scikit-learn's `normalize`: the Euclidean norm,
except that a zero norm is replaced by 1 (`norms[norms == 0.0] = 1.0`), the
explicit guard that keeps the similarity of an all-zero column at 0 instead
of NaN/Inf. -/
noncomputable def guardNorm (xs : List Rat) : Real :=
  if Real.sqrt ((normSq xs : Rat) : Real) = 0 then 1
  else Real.sqrt ((normSq xs : Rat) : Real)

/-- Cosine similarity of two columns as computed by scikit-learn's
`cosine_similarity`: each column is divided by its guarded norm and the
results are dotted, which over the reals equals
`dot(xs, ys) / (guardNorm xs * guardNorm ys)`. -/
noncomputable def simVal (xs ys : List Rat) : Real :=
  ((dotp xs ys : Rat) : Real) / (guardNorm xs * guardNorm ys)

/-- A similarity DataFrame: an ordered title index together with the similarity
score function (`movie_similarity_df`). -/
structure SimMatrix (α : Type) where
  titles : List String
  sim : String → String → α

/-- The similarity DataFrame built by `load_data` from the observations: index
and columns are the pivot's sorted titles, and the entry at `(a, b)` is the
cosine similarity of the two title columns. -/
noncomputable def similarityDF (ratings : List Obs) (movies : List Movie) :
    SimMatrix Real :=
  let d := mergeData ratings movies
  ⟨pivotTitles d, fun a b => simVal (matCol d a) (matCol d b)⟩

/-- The `load_data` pipeline of both files.  scikit-learn's `check_array`
(called by `cosine_similarity`) raises `ValueError` when the transposed matrix
has zero rows, i.e. when there are no titles; otherwise the similarity
DataFrame is returned. -/
noncomputable def load_data (ratings : List Obs) (movies : List Movie) :
    Except String (SimMatrix Real) :=
  if pivotTitles (mergeData ratings movies) = [] then
    Except.error "ValueError: Found array with 0 sample(s)"
  else
    Except.ok (similarityDF ratings movies)

/-- The pandas Series `movie_similarity_df[movie_name]`: the column of the
similarity DataFrame for `name`, indexed by the title index in index order. -/
def seriesColumn {α : Type} (M : SimMatrix α) (name : String) :
    List (String × α) :=
  M.titles.map fun t => (t, M.sim t name)

/-- The pandas call `series.sort_values(ascending=False)`: pandas computes an
ascending argsort of the values and reverses it (`nargsort` with
`ascending=False`).  numpy's sort is stable on small arrays (insertion sort for
fewer than 16 elements), so the model is the reverse of a stable ascending
sort; among tied values the reversal puts the later index first. -/
def sort_values_desc {α : Type} [LinearOrder α] (l : List (String × α)) :
    List (String × α) :=
  (List.insertionSort (fun p q => p.2 ≤ q.2) l).reverse

namespace MovieRecommender

/-- The `recommend_movie` of `movie_recommender.py`:
`movie_similarity_df[movie_name].sort_values(ascending=False)` followed by
`.iloc[1:num_recommendations+1].index.tolist()`.  The lookup
`movie_similarity_df[movie_name]` raises `KeyError` when the name is not a
column, modelled as `none`; a successful call returns the title list. -/
def recommend_movie {α : Type} [LinearOrder α] (M : SimMatrix α) (name : String)
    (n : Nat) : Option (List String) :=
  if name ∈ M.titles then
    some (((((sort_values_desc (seriesColumn M name)).drop 1).take n)).map Prod.fst)
  else
    none

end MovieRecommender

namespace MovieRecommenderApp

/-- The `recommend_movie` of `movie_recommender_app.py`: it first tests
`if movie_name not in movie_similarity_df.columns: return []`, then returns
the Series `similar_movies.iloc[1:num_recommendations+1]` (titles with their
scores).  Note the unknown-name branch returns an empty result successfully,
never an error. -/
def recommend_movie {α : Type} [LinearOrder α] (M : SimMatrix α) (name : String)
    (n : Nat) : List (String × α) :=
  if name ∈ M.titles then
    ((sort_values_desc (seriesColumn M name)).drop 1).take n
  else
    []

end MovieRecommenderApp

theorem dotp_cons (x y : Rat) (xs ys : List Rat) :
    dotp (x :: xs) (y :: ys) = x * y + dotp xs ys := by
  simp [dotp]

theorem dotp_comm (xs ys : List Rat) : dotp xs ys = dotp ys xs := by
  induction xs generalizing ys with
  | nil => cases ys <;> rfl
  | cons x xs ih =>
    cases ys with
    | nil => rfl
    | cons y ys => rw [dotp_cons, dotp_cons, ih, mul_comm]

theorem dotp_eq_zero_of_left_zero (xs ys : List Rat) (h : ∀ x ∈ xs, x = 0) :
    dotp xs ys = 0 := by
  induction xs generalizing ys with
  | nil => rfl
  | cons x xs ih =>
    cases ys with
    | nil => rfl
    | cons y ys =>
      rw [dotp_cons, h x (List.mem_cons_self x xs),
        ih ys fun z hz => h z (List.mem_cons_of_mem x hz), zero_mul, zero_add]

theorem seriesColumn_map_fst {α : Type} (M : SimMatrix α) (name : String) :
    (seriesColumn M name).map Prod.fst = M.titles := by
  simp [seriesColumn, List.map_map, Function.comp_def]

theorem sort_values_desc_perm {α : Type} [LinearOrder α] (l : List (String × α)) :
    List.Perm (sort_values_desc l) l :=
  (List.reverse_perm _).trans (List.perm_insertionSort _ l)

instance instSndLeTotal {α : Type} [LinearOrder α] :
    IsTotal (String × α) fun p q => p.2 ≤ q.2 :=
  ⟨fun p q => le_total p.2 q.2⟩

instance instSndLeTrans {α : Type} [LinearOrder α] :
    IsTrans (String × α) fun p q => p.2 ≤ q.2 :=
  ⟨fun _ _ _ h h2 => le_trans h h2⟩

theorem sort_values_desc_sorted {α : Type} [LinearOrder α] (l : List (String × α)) :
    List.Pairwise (fun p q : String × α => q.2 ≤ p.2) (sort_values_desc l) := by
  rw [sort_values_desc, List.pairwise_reverse]
  exact List.sorted_insertionSort _ l

/-- C3 (confirmed): for every dataset of rating observations, the similarity
matrix produced by `load_data` is symmetric: the entry at `(a, b)` equals the
entry at `(b, a)` for every pair of titles (in particular for every pair in its
index).  `similarityDF` is the matrix `load_data` returns on success. -/
theorem similarity_matrix_symmetric (ratings : List Obs) (movies : List Movie)
    (a b : String) :
    (similarityDF ratings movies).sim a b = (similarityDF ratings movies).sim b a := by
  simp only [similarityDF, simVal]
  rw [dotp_comm, mul_comm]

/-- C4 (confirmed): a rating-matrix column whose entries are all zero has
similarity exactly 0 with every column (in either argument order), and the
zero-norm guard of scikit-learn's `normalize` (modelled in `guardNorm`)
replaces its zero norm by 1, so the division is by a nonzero number and no
NaN/Inf arises.  `similarityDF` applies `simVal` to every pair of columns. -/
theorem zero_column_similarity (xs ys : List Rat) (h : ∀ x ∈ xs, x = 0) :
    simVal xs ys = 0 ∧ simVal ys xs = 0 ∧ guardNorm xs = 1 := by
  have hdot : dotp xs ys = 0 := dotp_eq_zero_of_left_zero xs ys h
  have hns : normSq xs = 0 := dotp_eq_zero_of_left_zero xs xs h
  have hg : guardNorm xs = 1 := by
    rw [guardNorm, hns]
    simp
  refine ⟨?_, ?_, hg⟩
  · rw [simVal, hdot]
    simp
  · rw [simVal, dotp_comm, hdot]
    simp

/-- Witness for C4 at the concrete all-zero column `[0, 0]` against `[3, 4]`. -/
theorem zero_column_similarity_witness :
    (∀ x ∈ ([0, 0] : List Rat), x = 0) ∧
      (simVal [0, 0] [3, 4] = 0 ∧ simVal [3, 4] [0, 0] = 0 ∧ guardNorm [0, 0] = 1) :=
  ⟨by decide, zero_column_similarity [0, 0] [3, 4] (by decide)⟩

/-- C5 (confirmed): for a title present in the index and any requested count,
both `recommend_movie` implementations return exactly `min n (k - 1)` entries,
where `k` is the number of titles, and no error occurs: the `iloc[1:n+1]`
slice of the sorted length-`k` Series has `min n (k - 1)` rows. -/
theorem recommend_movie_length {α : Type} [LinearOrder α] (M : SimMatrix α)
    (name : String) (n : Nat) (hn : 1 ≤ n) (hmem : name ∈ M.titles) :
    (MovieRecommender.recommend_movie M name n).map List.length
        = some (min n (M.titles.length - 1)) ∧
      (MovieRecommenderApp.recommend_movie M name n).length
        = min n (M.titles.length - 1) := by
  have hS : (sort_values_desc (seriesColumn M name)).length = M.titles.length := by
    rw [(sort_values_desc_perm _).length_eq]
    simp [seriesColumn]
  have hlen : (((sort_values_desc (seriesColumn M name)).drop 1).take n).length
      = min n (M.titles.length - 1) := by
    rw [List.length_take, List.length_drop, hS]
  constructor
  · rw [MovieRecommender.recommend_movie, if_pos hmem]
    exact congrArg some (by rw [List.length_map, hlen])
  · rw [MovieRecommenderApp.recommend_movie, if_pos hmem, hlen]

/-- Witness for C5 on a concrete 2-title matrix with `n = 5`: the result has
`min 5 (2 - 1) = 1` entry. -/
theorem recommend_movie_length_witness :
    (1 ≤ 5 ∧ "A" ∈ (⟨["A", "B"], fun _ _ => (1 : Rat)⟩ : SimMatrix Rat).titles) ∧
      ((MovieRecommender.recommend_movie
            (⟨["A", "B"], fun _ _ => (1 : Rat)⟩ : SimMatrix Rat) "A" 5).map List.length
          = some (min 5 ((⟨["A", "B"], fun _ _ => (1 : Rat)⟩ : SimMatrix Rat).titles.length - 1)) ∧
        (MovieRecommenderApp.recommend_movie
            (⟨["A", "B"], fun _ _ => (1 : Rat)⟩ : SimMatrix Rat) "A" 5).length
          = min 5 ((⟨["A", "B"], fun _ _ => (1 : Rat)⟩ : SimMatrix Rat).titles.length - 1)) :=
  ⟨⟨by decide, by decide⟩, recommend_movie_length _ "A" 5 (by decide) (by decide)⟩

/-- C2 counterexample: on a concrete similarity matrix whose index is `["A"]`,
the query `"NoSuchItem"` is absent from the index, yet the
`movie_recommender_app.py` version of `recommend_movie` returns the empty
result successfully (its unknown-name branch is `return []`), not an error:
the claim that every implementation signals a NotFound error is false. -/
theorem unknown_title_empty_success :
    "NoSuchItem" ∉ (⟨["A"], fun _ _ => (1 : Rat)⟩ : SimMatrix Rat).titles ∧
      MovieRecommenderApp.recommend_movie
        (⟨["A"], fun _ _ => (1 : Rat)⟩ : SimMatrix Rat) "NoSuchItem" 5 = [] := by
  decide

/-- C2 amended (proved): for a query title absent from the index, the
`movie_recommender.py` version raises `KeyError` (a NotFound outcome, modelled
as `none`), while the `movie_recommender_app.py` version instead returns an
empty successful result. -/
theorem recommend_movie_unknown_title {α : Type} [LinearOrder α] (M : SimMatrix α)
    (name : String) (n : Nat) (h : name ∉ M.titles) :
    MovieRecommender.recommend_movie M name n = none ∧
      MovieRecommenderApp.recommend_movie M name n = [] := by
  constructor
  · rw [MovieRecommender.recommend_movie, if_neg h]
  · rw [MovieRecommenderApp.recommend_movie, if_neg h]

/-- Witness for the amended C2 at a concrete matrix and unknown title. -/
theorem recommend_movie_unknown_title_witness :
    "NoSuchItem" ∉ (⟨["A"], fun _ _ => (1 : Rat)⟩ : SimMatrix Rat).titles ∧
      (MovieRecommender.recommend_movie
          (⟨["A"], fun _ _ => (1 : Rat)⟩ : SimMatrix Rat) "NoSuchItem" 5 = none ∧
        MovieRecommenderApp.recommend_movie
          (⟨["A"], fun _ _ => (1 : Rat)⟩ : SimMatrix Rat) "NoSuchItem" 5 = []) :=
  ⟨by decide, recommend_movie_unknown_title _ "NoSuchItem" 5 (by decide)⟩

/-- C10 (confirmed): on every title present in the index, with
`num_recommendations = 5`, the title list returned by the
`movie_recommender.py` implementation equals the index of the Series returned
by the `movie_recommender_app.py` implementation, in the same order. -/
theorem recommend_movie_equiv {α : Type} [LinearOrder α] (M : SimMatrix α)
    (name : String) (hmem : name ∈ M.titles) :
    MovieRecommender.recommend_movie M name 5
      = some ((MovieRecommenderApp.recommend_movie M name 5).map Prod.fst) := by
  rw [MovieRecommender.recommend_movie, MovieRecommenderApp.recommend_movie,
    if_pos hmem, if_pos hmem]

/-- Witness for C10 at a concrete matrix and known title. -/
theorem recommend_movie_equiv_witness :
    "A" ∈ (⟨["A", "B"], fun _ _ => (1 : Rat)⟩ : SimMatrix Rat).titles ∧
      MovieRecommender.recommend_movie
          (⟨["A", "B"], fun _ _ => (1 : Rat)⟩ : SimMatrix Rat) "A" 5
        = some ((MovieRecommenderApp.recommend_movie
            (⟨["A", "B"], fun _ _ => (1 : Rat)⟩ : SimMatrix Rat) "A" 5).map Prod.fst) :=
  ⟨by decide, recommend_movie_equiv _ "A" (by decide)⟩

/-- C8 (confirmed): whenever two or more observations fall into the same
`(user_id, title)` pivot cell, the cell resolves to the arithmetic mean of
those ratings (pandas' default `aggfunc='mean'`); the `fillna(0)` branch is
not taken. -/
theorem pivot_duplicates_mean (ratings : List Obs) (movies : List Movie)
    (u : Int) (t : String)
    (h : 2 ≤ (cellRatings (mergeData ratings movies) u t).length) :
    cell (mergeData ratings movies) u t
      = (cellRatings (mergeData ratings movies) u t).sum
          / ((cellRatings (mergeData ratings movies) u t).length : Rat) := by
  have hne : cellRatings (mergeData ratings movies) u t ≠ [] := by
    intro he
    rw [he] at h
    exact absurd h (by decide)
  simp [cell, hne]

/-- Witness for C8: a user rates the same movie twice (5 and 4); the pivot
cell is the mean of the two ratings. -/
theorem pivot_duplicates_mean_witness :
    2 ≤ (cellRatings (mergeData [⟨1, 1, 5, 0⟩, ⟨1, 1, 4, 0⟩] [⟨1, "A"⟩]) 1 "A").length ∧
      cell (mergeData [⟨1, 1, 5, 0⟩, ⟨1, 1, 4, 0⟩] [⟨1, "A"⟩]) 1 "A"
        = (cellRatings (mergeData [⟨1, 1, 5, 0⟩, ⟨1, 1, 4, 0⟩] [⟨1, "A"⟩]) 1 "A").sum
            / ((cellRatings (mergeData [⟨1, 1, 5, 0⟩, ⟨1, 1, 4, 0⟩] [⟨1, "A"⟩]) 1 "A").length : Rat) :=
  ⟨by decide, pivot_duplicates_mean _ _ 1 "A" (by decide)⟩

/-- C6 counterexample: with an empty observation sequence (and a concrete
movie table), the pipeline does not return an empty similarity matrix; it
fails with the `ValueError` that scikit-learn's `check_array` raises for a
zero-sample input inside `cosine_similarity`. -/
theorem load_data_empty_error_concrete :
    load_data [] [⟨1, "A"⟩]
      = Except.error "ValueError: Found array with 0 sample(s)" := rfl

/-- C6 amended (proved): for every movie table, an empty observation sequence
makes `load_data` fail at the `cosine_similarity` step (scikit-learn rejects
arrays with zero samples) instead of producing an empty similarity matrix. -/
theorem load_data_empty_error (movies : List Movie) :
    load_data [] movies
      = Except.error "ValueError: Found array with 0 sample(s)" := by
  rw [load_data, if_pos (show pivotTitles (mergeData [] movies) = [] from rfl)]

/-- C1 counterexample: on a similarity matrix with two titles whose columns are
identical (every similarity is exactly 1, as cosine similarity of two identical
rating columns is), the query `"A"` is in the index, yet
`recommend_movie("A", 1)` returns `["A"]` — the query title itself.  The code
drops only `iloc[0]` of the descending sort, and pandas' descending sort is the
reversal of an ascending argsort, which puts the tied `"B"` row first and the
self row second. -/
theorem recommend_includes_self_on_tie :
    "A" ∈ (⟨["A", "B"], fun _ _ => (1 : Rat)⟩ : SimMatrix Rat).titles ∧
      MovieRecommender.recommend_movie
        (⟨["A", "B"], fun _ _ => (1 : Rat)⟩ : SimMatrix Rat) "A" 1 = some ["A"] := by
  decide

/-- C1 amended (proved): if the query title's self-similarity is strictly
greater than the similarity of every other title to it (no tie at the top,
which holds whenever no other column is an exact duplicate in direction), then
the result of `recommend_movie` never contains the query title itself. -/
theorem recommend_excludes_self_of_strict_max {α : Type} [LinearOrder α]
    (M : SimMatrix α) (name : String) (n : Nat)
    (hnd : M.titles.Nodup) (hmem : name ∈ M.titles)
    (hmax : ∀ t ∈ M.titles, t ≠ name → M.sim t name < M.sim name name) :
    name ∉ (MovieRecommender.recommend_movie M name n).getD [] := by
  rw [MovieRecommender.recommend_movie, if_pos hmem, Option.getD_some]
  have hperm : List.Perm (sort_values_desc (seriesColumn M name)) (seriesColumn M name) :=
    sort_values_desc_perm _
  obtain ⟨p, rest, hrest⟩ :
      ∃ p rest, sort_values_desc (seriesColumn M name) = p :: rest := by
    cases hS : sort_values_desc (seriesColumn M name) with
    | nil =>
      exfalso
      have hlen := hperm.length_eq
      rw [hS] at hlen
      simp only [List.length_nil, seriesColumn, List.length_map] at hlen
      exact List.ne_nil_of_mem hmem (List.eq_nil_of_length_eq_zero hlen.symm)
    | cons p rest => exact ⟨p, rest, rfl⟩
  have hhead : ∀ q ∈ rest, q.2 ≤ p.2 := by
    have hsorted := sort_values_desc_sorted (seriesColumn M name)
    rw [hrest] at hsorted
    exact fun q hq => List.rel_of_pairwise_cons hsorted hq
  have hmemS : (name, M.sim name name) ∈ p :: rest := by
    rw [← hrest]
    exact hperm.mem_iff.mpr
      (List.mem_map_of_mem (fun t => (t, M.sim t name)) hmem)
  have hp1 : p.1 = name := by
    by_contra hne
    have hpS : p ∈ sort_values_desc (seriesColumn M name) := by
      rw [hrest]
      exact List.mem_cons_self p rest
    obtain ⟨t, ht, hpt⟩ := List.mem_map.mp (hperm.mem_iff.mp hpS)
    have ht_ne : t ≠ name := by
      intro h
      apply hne
      rw [← hpt, h]
    have hval : p.2 < M.sim name name := by
      rw [← hpt]
      exact hmax t ht ht_ne
    rcases List.mem_cons.mp hmemS with heq | hmm
    · exact hne (by rw [← heq])
    · exact absurd hval (not_lt.mpr (hhead _ hmm))
  have hcountS : List.count name ((p :: rest).map Prod.fst) = 1 := by
    have hmap : List.Perm ((sort_values_desc (seriesColumn M name)).map Prod.fst) M.titles := by
      have := hperm.map Prod.fst
      rwa [seriesColumn_map_fst] at this
    rw [← hrest, hmap.count_eq]
    exact List.count_eq_one_of_mem hnd hmem
  have hnotin : name ∉ rest.map Prod.fst := by
    apply List.count_eq_zero.mp
    rw [List.map_cons, hp1, List.count_cons_self] at hcountS
    omega
  rw [hrest]
  intro hmemGoal
  simp only [List.drop_succ_cons, List.drop_zero] at hmemGoal
  exact hnotin (List.map_subset Prod.fst (List.take_subset n rest) hmemGoal)

/-- Witness for the amended C1: the self-similarity 2 strictly exceeds every
other entry 1 of the query column, and the result excludes the query title. -/
theorem recommend_excludes_self_witness :
    ((["A", "B"] : List String).Nodup ∧
        "A" ∈ (⟨["A", "B"], fun a b => if a = b then (2 : Rat) else 1⟩ : SimMatrix Rat).titles) ∧
      "A" ∉ (MovieRecommender.recommend_movie
          (⟨["A", "B"], fun a b => if a = b then (2 : Rat) else 1⟩ : SimMatrix Rat)
          "A" 1).getD [] :=
  ⟨⟨by decide, by decide⟩,
    recommend_excludes_self_of_strict_max _ "A" 1 (by decide) (by decide) (by decide)⟩

/-- C9 (confirmed): when two observations refer to distinct `movie_id`s that
share one title, the pivot keys its columns by `title`, so the similarity
matrix index carries exactly one entry for that title (the ids are silently
merged into one column; `mergeData` and `pivotTitles` are total functions, so
no rejection occurs). -/
theorem duplicate_title_single_column (ratings : List Obs) (movies : List Movie)
    (i j : Int) (t : String) (o : Obs)
    (hij : i ≠ j) (ho : o ∈ ratings) (hoi : o.movie_id = i)
    (hmi : (⟨i, t⟩ : Movie) ∈ movies) (hmj : (⟨j, t⟩ : Movie) ∈ movies) :
    List.count t (pivotTitles (mergeData ratings movies)) = 1 := by
  have hnd : (pivotTitles (mergeData ratings movies)).Nodup := by
    rw [pivotTitles]
    exact (List.perm_insertionSort _ _).symm.nodup (List.nodup_dedup _)
  have hmem : t ∈ pivotTitles (mergeData ratings movies) := by
    rw [pivotTitles, List.mem_insertionSort, List.mem_dedup, List.mem_map]
    refine ⟨(o, t), ?_, rfl⟩
    rw [mergeData, List.mem_flatMap]
    refine ⟨o, ho, ?_⟩
    rw [List.mem_map]
    refine ⟨⟨i, t⟩, ?_, rfl⟩
    rw [List.mem_filter]
    exact ⟨hmi, by simp [hoi]⟩
  exact List.count_eq_one_of_mem hnd hmem

/-- Witness for C9: movies 1 and 2 both carry the title `"A"`, are both rated,
and the title index contains exactly one entry `"A"`. -/
theorem duplicate_title_single_column_witness :
    ((1 : Int) ≠ 2 ∧
        (⟨1, 1, 5, 0⟩ : Obs) ∈ ([⟨1, 1, 5, 0⟩, ⟨2, 2, 3, 0⟩] : List Obs) ∧
        (⟨1, "A"⟩ : Movie) ∈ ([⟨1, "A"⟩, ⟨2, "A"⟩] : List Movie) ∧
        (⟨2, "A"⟩ : Movie) ∈ ([⟨1, "A"⟩, ⟨2, "A"⟩] : List Movie)) ∧
      List.count "A"
          (pivotTitles (mergeData [⟨1, 1, 5, 0⟩, ⟨2, 2, 3, 0⟩] [⟨1, "A"⟩, ⟨2, "A"⟩])) = 1 :=
  ⟨⟨by decide, by decide, by decide, by decide⟩,
    duplicate_title_single_column _ _ 1 2 "A" ⟨1, 1, 5, 0⟩ (by decide) (by decide)
      (by decide) (by decide) (by decide)⟩

/-- The concrete dataset of the spec's test scenario: 3 users rating 3 items,
U1 = (A:5, B:3, C:0), U2 = (A:4, B:0, C:0), U3 = (A:0, B:0, C:5). -/
def r7 : List Obs :=
  [⟨1, 1, 5, 100⟩, ⟨1, 2, 3, 100⟩, ⟨1, 3, 0, 100⟩,
   ⟨2, 1, 4, 100⟩, ⟨2, 2, 0, 100⟩, ⟨2, 3, 0, 100⟩,
   ⟨3, 1, 0, 100⟩, ⟨3, 2, 0, 100⟩, ⟨3, 3, 5, 100⟩]

/-- The item table of the test scenario: ids 1, 2, 3 titled A, B, C. -/
def m7 : List Movie := [⟨1, "A"⟩, ⟨2, "B"⟩, ⟨3, "C"⟩]

theorem cell_eval (d : List (Obs × String)) (u : Int) (t : String) (q : Rat)
    (h : cellRatings d u t = [q]) : cell d u t = q := by
  simp [cell, h]

theorem matColA : matCol (mergeData r7 m7) "A" = [5, 4, 0] := by
  have hU : pivotUsers (mergeData r7 m7) = [1, 2, 3] := by decide
  rw [matCol, hU]
  simp only [List.map_cons, List.map_nil]
  rw [cell_eval _ _ _ 5 (by decide), cell_eval _ _ _ 4 (by decide),
    cell_eval _ _ _ 0 (by decide)]

theorem matColB : matCol (mergeData r7 m7) "B" = [3, 0, 0] := by
  have hU : pivotUsers (mergeData r7 m7) = [1, 2, 3] := by decide
  rw [matCol, hU]
  simp only [List.map_cons, List.map_nil]
  rw [cell_eval _ _ _ 3 (by decide), cell_eval _ _ _ 0 (by decide),
    cell_eval _ _ _ 0 (by decide)]

theorem matColC : matCol (mergeData r7 m7) "C" = [0, 0, 5] := by
  have hU : pivotUsers (mergeData r7 m7) = [1, 2, 3] := by decide
  rw [matCol, hU]
  simp only [List.map_cons, List.map_nil]
  rw [cell_eval _ _ _ 0 (by decide), cell_eval _ _ _ 0 (by decide),
    cell_eval _ _ _ 5 (by decide)]

theorem guardA : guardNorm [5, 4, 0] = Real.sqrt 41 := by
  have h : ((normSq [5, 4, 0] : Rat) : Real) = 41 := by
    norm_num [normSq, dotp, List.zip_cons_cons, List.zip_nil_right]
  rw [guardNorm, h,
    if_neg (Real.sqrt_pos.mpr (by norm_num : (0 : Real) < 41)).ne']

theorem guardB : guardNorm [3, 0, 0] = 3 := by
  have h : ((normSq [3, 0, 0] : Rat) : Real) = 9 := by
    norm_num [normSq, dotp, List.zip_cons_cons, List.zip_nil_right]
  have h9 : Real.sqrt 9 = 3 := by
    rw [show (9 : Real) = 3 ^ 2 by norm_num,
      Real.sqrt_sq (by norm_num : (0 : Real) ≤ 3)]
  rw [guardNorm, h, h9, if_neg (by norm_num : ¬ (3 : Real) = 0)]

theorem dotpAB : ((dotp [5, 4, 0] [3, 0, 0] : Rat) : Real) = 15 := by
  norm_num [dotp, List.zip_cons_cons, List.zip_nil_right]

theorem dotpBA : ((dotp [3, 0, 0] [5, 4, 0] : Rat) : Real) = 15 := by
  norm_num [dotp, List.zip_cons_cons, List.zip_nil_right]

theorem simAA : simVal [5, 4, 0] [5, 4, 0] = 1 := by
  have hdot : ((dotp [5, 4, 0] [5, 4, 0] : Rat) : Real) = 41 := by
    norm_num [dotp, List.zip_cons_cons, List.zip_nil_right]
  rw [simVal, hdot, guardA, Real.mul_self_sqrt (by norm_num : (0 : Real) ≤ 41)]
  norm_num

theorem simCA : simVal [0, 0, 5] [5, 4, 0] = 0 := by
  have hdot : ((dotp [0, 0, 5] [5, 4, 0] : Rat) : Real) = 0 := by
    norm_num [dotp, List.zip_cons_cons, List.zip_nil_right]
  rw [simVal, hdot, zero_div]

theorem simAC : simVal [5, 4, 0] [0, 0, 5] = 0 := by
  have hdot : ((dotp [5, 4, 0] [0, 0, 5] : Rat) : Real) = 0 := by
    norm_num [dotp, List.zip_cons_cons, List.zip_nil_right]
  rw [simVal, hdot, zero_div]

theorem sqrt41_pos : (0 : Real) < Real.sqrt 41 :=
  Real.sqrt_pos.mpr (by norm_num)

theorem simAB_pos : 0 < simVal [5, 4, 0] [3, 0, 0] := by
  rw [simVal, dotpAB, guardA, guardB]
  have := sqrt41_pos
  positivity

theorem simBA_pos : 0 < simVal [3, 0, 0] [5, 4, 0] := by
  rw [simVal, dotpBA, guardA, guardB]
  have := sqrt41_pos
  positivity

theorem simBA_lt_one : simVal [3, 0, 0] [5, 4, 0] < 1 := by
  rw [simVal, dotpBA, guardA, guardB]
  have h41 := sqrt41_pos
  rw [div_lt_one (by positivity)]
  have h5 : (5 : Real) < Real.sqrt 41 :=
    (Real.lt_sqrt (by norm_num : (0 : Real) ≤ 5)).mpr (by norm_num)
  nlinarith

theorem sort_values_desc_triple {α : Type} [LinearOrder α] (a b c : String)
    (x y z : α) (hyx : y < x) (hzy : z < y) :
    sort_values_desc [(a, x), (b, y), (c, z)] = [(a, x), (b, y), (c, z)] := by
  have h1 : ¬ (y ≤ z) := not_le.mpr hzy
  have h2 : ¬ (x ≤ z) := not_le.mpr (hzy.trans hyx)
  have h3 : ¬ (x ≤ y) := not_le.mpr hyx
  simp [sort_values_desc, List.insertionSort, List.orderedInsert, h1, h2, h3]

theorem titles7 : (similarityDF r7 m7).titles = ["A", "B", "C"] := by
  show pivotTitles (mergeData r7 m7) = _
  decide

theorem sim7_eq (a b : String) :
    (similarityDF r7 m7).sim a b
      = simVal (matCol (mergeData r7 m7) a) (matCol (mergeData r7 m7) b) := rfl

/-- C7 (confirmed): on the spec's concrete 3-user/3-item dataset, the computed
similarity of A and B strictly exceeds that of A and C (which is 0), and
`recommend_movie("A", 2)` returns exactly `["B", "C"]` in that order. -/
theorem concrete_scenario_recommendation :
    (similarityDF r7 m7).sim "A" "B" > (similarityDF r7 m7).sim "A" "C" ∧
      MovieRecommender.recommend_movie (similarityDF r7 m7) "A" 2
        = some ["B", "C"] := by
  constructor
  · rw [sim7_eq, sim7_eq, matColA, matColB, matColC, simAC]
    exact simAB_pos
  · have hmem : "A" ∈ (similarityDF r7 m7).titles := by
      rw [titles7]
      decide
    have eAA : (similarityDF r7 m7).sim "A" "A" = 1 := by
      rw [sim7_eq, matColA, simAA]
    have eBA : (similarityDF r7 m7).sim "B" "A" = simVal [3, 0, 0] [5, 4, 0] := by
      rw [sim7_eq, matColA, matColB]
    have eCA : (similarityDF r7 m7).sim "C" "A" = 0 := by
      rw [sim7_eq, matColA, matColC, simCA]
    have hcol : seriesColumn (similarityDF r7 m7) "A"
        = [("A", (1 : Real)), ("B", simVal [3, 0, 0] [5, 4, 0]), ("C", (0 : Real))] := by
      rw [seriesColumn, titles7]
      simp only [List.map_cons, List.map_nil]
      rw [eAA, eBA, eCA]
    rw [MovieRecommender.recommend_movie, if_pos hmem, hcol,
      sort_values_desc_triple "A" "B" "C" 1 (simVal [3, 0, 0] [5, 4, 0]) 0
        simBA_lt_one simBA_pos]
    rfl

